import Mathlib

/-!
Verification of the BucketPolicyMember reconciliation controller
(pkg/controller/storage/bucketpolicymember.go) of the crossplane GCP
provider, as a shallow embedding.

The controller keeps one (role, member) pair present in (or absent from)
a GCS bucket's IAM policy document.  The adapter's four verbs (Observe,
Create, Update, Delete) are embedded as pure functions that, besides the
Go return values, record the trace of remote calls issued and the managed
resource after the call, so that frame and trace properties can be stated.

Helpers living outside the embedded source file (the bucketpolicy
membership resolver, the gcp.StringValue helper, the policy-version
constant and the error-message constants of the sibling controller file)
are modelled from the specification, marked as such in their doc comments.
-/

namespace Storage

/-- Remote error returned by the policy store (googleapi error, carrying
an HTTP status code). NotFound is code 404. -/
structure GcpError where
  code : Nat
  message : String
deriving DecidableEq, Repr

/-- The access-policy document, modelled from the spec data model:
an opaque version token (etag) plus a mapping from role to the set of
member identifiers, realised as an association list. -/
structure Policy where
  etag : String
  bindings : List (String × List String)
deriving DecidableEq, Repr

/-- BucketPolicyMemberParameters: the declared (bucket, role, member)
triple; fields are optional strings as in the Go API types. -/
structure BucketPolicyMemberParameters where
  bucket : Option String
  role : Option String
  memberName : Option String
deriving DecidableEq, Repr

structure BucketPolicyMemberSpec where
  forProvider : BucketPolicyMemberParameters
deriving DecidableEq, Repr

/-- Resource status: the list of condition markers currently set. -/
structure BucketPolicyMemberStatus where
  conditions : List String
deriving DecidableEq, Repr

/-- The BucketPolicyMember managed-resource object. -/
structure BucketPolicyMemberCR where
  spec : BucketPolicyMemberSpec
  status : BucketPolicyMemberStatus
deriving DecidableEq, Repr

/-- The dynamically typed managed-resource handle passed to each verb;
the adapter type-asserts it to BucketPolicyMemberCR. -/
inductive ManagedResource where
  | bucketPolicyMember (cr : BucketPolicyMemberCR)
  | other
deriving DecidableEq, Repr

/-- Modelled from the spec: gcp.StringValue reads an optional declared
string, an absent field reading as the empty string. -/
def stringValue : Option String → String
  | none => ""
  | some s => s

/-- Modelled from the spec: iamv1alpha1.PolicyVersion, the store's most
expressive (highest supported) policy representation version, requested
on every fetch so that bindings implied by higher-level grants are
visible to the membership check. -/
def PolicyVersion : Int := 3

/-- In-source constant: message for the managed-resource type assertion
failing. -/
def errNotBucketPolicyMember : String :=
  "managed resource is not a GCP BucketPolicyMember"

/-- Modelled from the spec: the fetch-stage error context constant
(errGetPolicy, defined in the sibling bucketpolicy controller file, not
part of the embedded source); only its identity across the three fetch
sites and its distinctness from the write-stage constant matter. -/
def errGetPolicy : String := "cannot get Bucket policy"

/-- Modelled from the spec: the write-stage error context constant
(errSetPolicy, defined in the sibling bucketpolicy controller file, not
part of the embedded source). -/
def errSetPolicy : String := "cannot set Bucket policy"

/-- Modelled from the spec: the MembershipResolver ensurePresent
operation on the bindings mapping.  Looks up the role; if the member is
already an element of the role's member set the document is returned
unchanged with changed = false; otherwise the member is inserted
(creating the role entry if absent) and changed = true. -/
def bindB : List (String × List String) → String → String →
    List (String × List String) × Bool
  | [], role, m => ([(role, [m])], true)
  | (r, ms) :: rest, role, m =>
    if r = role then
      if m ∈ ms then ((r, ms) :: rest, false)
      else ((r, ms ++ [m]) :: rest, true)
    else
      ((r, ms) :: (bindB rest role m).1, (bindB rest role m).2)

/-- Modelled from the spec: the MembershipResolver ensureAbsent
operation on the bindings mapping.  Looks up the role; if the member is
not present the document is returned unchanged with changed = false;
otherwise the member is removed, the role entry pruned if its member set
becomes empty, and changed = true. -/
def unbindB : List (String × List String) → String → String →
    List (String × List String) × Bool
  | [], _, _ => ([], false)
  | (r, ms) :: rest, role, m =>
    if r = role then
      if m ∈ ms then
        (if (ms.filter (fun x => x ≠ m)).isEmpty then rest
         else (r, ms.filter (fun x => x ≠ m)) :: rest, true)
      else ((r, ms) :: rest, false)
    else
      ((r, ms) :: (unbindB rest role m).1, (unbindB rest role m).2)

/-- Modelled from the spec: bucketpolicy.BindRoleToMember — ensurePresent
of the desired (role, member) pair in the fetched policy document; the
version token is untouched, only the bindings mapping is mutated in local
memory. Returns the mutated document together with the changed flag. -/
def BindRoleToMember (p : BucketPolicyMemberParameters) (d : Policy) :
    Policy × Bool :=
  let t := bindB d.bindings (stringValue p.role) (stringValue p.memberName)
  ({ etag := d.etag, bindings := t.1 }, t.2)

/-- Modelled from the spec: bucketpolicy.UnbindRoleFromMember —
ensureAbsent of the desired (role, member) pair in the fetched policy
document; the version token is untouched. -/
def UnbindRoleFromMember (p : BucketPolicyMemberParameters) (d : Policy) :
    Policy × Bool :=
  let t := unbindB d.bindings (stringValue p.role) (stringValue p.memberName)
  ({ etag := d.etag, bindings := t.1 }, t.2)

lemma bindRoleToMember_etag (p : BucketPolicyMemberParameters) (d : Policy) :
    (BindRoleToMember p d).1.etag = d.etag := rfl

lemma unbindRoleFromMember_etag (p : BucketPolicyMemberParameters) (d : Policy) :
    (UnbindRoleFromMember p d).1.etag = d.etag := rfl

lemma bindB_idem (l : List (String × List String)) (role m : String) :
    bindB (bindB l role m).1 role m = ((bindB l role m).1, false) := by
  induction l with
  | nil => simp [bindB]
  | cons hd tl ih =>
    obtain ⟨r, ms⟩ := hd
    by_cases hr : r = role
    · by_cases hm : m ∈ ms
      · simp [bindB, hr, hm]
      · simp [bindB, hr, hm]
    · simp only [bindB, if_neg hr]
      simp [ih]

lemma unbindB_not_mem_keys (l : List (String × List String)) (role m : String)
    (h : role ∉ l.map Prod.fst) :
    unbindB l role m = (l, false) := by
  induction l with
  | nil => simp [unbindB]
  | cons hd tl ih =>
    obtain ⟨r, ms⟩ := hd
    have h1 : ¬ r = role := by
      intro hrr
      exact h (by simp [hrr])
    have h2 : role ∉ tl.map Prod.fst := by
      intro hmem
      exact h (by simp [hmem])
    simp only [unbindB, if_neg h1]
    simp [ih h2]

lemma unbindB_idem (l : List (String × List String)) (role m : String)
    (h : (l.map Prod.fst).Nodup) :
    unbindB (unbindB l role m).1 role m = ((unbindB l role m).1, false) := by
  induction l with
  | nil => simp [unbindB]
  | cons hd tl ih =>
    obtain ⟨r, ms⟩ := hd
    rw [List.map_cons, List.nodup_cons] at h
    obtain ⟨hnk, hnd⟩ := h
    by_cases hr : r = role
    · by_cases hm : m ∈ ms
      · simp only [unbindB, if_pos hr, if_pos hm]
        by_cases he : (ms.filter (fun x => x ≠ m)).isEmpty
        · rw [if_pos he]
          exact unbindB_not_mem_keys tl role m (hr ▸ hnk)
        · rw [if_neg he]
          have hm2 : ¬ m ∈ ms.filter (fun x => x ≠ m) := by simp
          simp only [unbindB, if_pos hr, if_neg hm2]
      · simp only [unbindB, if_pos hr, if_neg hm]
    · simp only [unbindB, if_neg hr]
      simp [ih hnd]

/-- A remote call issued against the policy store during one cycle. -/
inductive RemoteCall where
  | getIamPolicy (bucket : String) (requestedPolicyVersion : Int)
  | setIamPolicy (bucket : String) (policy : Policy)
deriving DecidableEq, Repr

/-- An error as returned by a verb: either a fresh message
(errors.New) or a remote error wrapped with a stage context
(errors.Wrap). -/
inductive ReconcileError where
  | fresh (msg : String)
  | wrap (e : GcpError) (msg : String)
deriving DecidableEq, Repr

/-- The remote policy store as seen by one reconciliation cycle: what a
fetch of a bucket at a requested policy version returns, and what a
replace of a bucket's policy returns. -/
structure ClientEnv where
  getIamPolicy : String → Int → Except GcpError Policy
  setIamPolicy : String → Policy → Except GcpError Policy

/-- managed.ExternalObservation (the fields the controller sets). -/
structure ExternalObservation where
  resourceExists : Bool
  resourceUpToDate : Bool
deriving DecidableEq, Repr

/-- Result of Observe: the observation and error returned to the control
loop, the managed resource object after the call (Observe may set status
conditions on it), and the trace of remote calls issued. -/
structure ObserveResult where
  observation : ExternalObservation
  err : Option ReconcileError
  mg : ManagedResource
  trace : List RemoteCall
deriving DecidableEq, Repr

/-- Result of Create / Update / Delete: the error returned to the
control loop and the trace of remote calls issued. -/
structure VerbResult where
  err : Option ReconcileError
  trace : List RemoteCall
deriving DecidableEq, Repr

/-- Modelled from the spec: cr.Status.SetConditions(xpv1.Available())
marks the resource available, replacing any previous Available marker;
it touches only the status conditions. -/
def setAvailable (st : BucketPolicyMemberStatus) : BucketPolicyMemberStatus :=
  { conditions := st.conditions.filter (fun c => c ≠ "Available") ++ ["Available"] }

/-- The managed resource with its status marked available. -/
def markAvailable (cr : BucketPolicyMemberCR) : BucketPolicyMemberCR :=
  { cr with status := setAvailable cr.status }

/-- Observe: type-assert the managed resource; fetch the bucket policy
at the requested policy version; on fetch failure wrap with the
fetch-stage context; otherwise compute the ensure-present change flag:
if nothing would change, mark available and report exists and up to
date, else report drift (the zero observation). No write is issued. -/
def Observe (env : ClientEnv) (mg : ManagedResource) : ObserveResult :=
  match mg with
  | ManagedResource.other =>
    { observation := ⟨false, false⟩
      err := some (ReconcileError.fresh errNotBucketPolicyMember)
      mg := mg, trace := [] }
  | ManagedResource.bucketPolicyMember cr =>
    match env.getIamPolicy (stringValue cr.spec.forProvider.bucket) PolicyVersion with
    | Except.error e =>
      { observation := ⟨false, false⟩
        err := some (ReconcileError.wrap e errGetPolicy)
        mg := ManagedResource.bucketPolicyMember cr
        trace := [RemoteCall.getIamPolicy (stringValue cr.spec.forProvider.bucket) PolicyVersion] }
    | Except.ok fetched =>
      if !(BindRoleToMember cr.spec.forProvider fetched).2 then
        { observation := ⟨true, true⟩
          err := none
          mg := ManagedResource.bucketPolicyMember (markAvailable cr)
          trace := [RemoteCall.getIamPolicy (stringValue cr.spec.forProvider.bucket) PolicyVersion] }
      else
        { observation := ⟨false, false⟩
          err := none
          mg := ManagedResource.bucketPolicyMember cr
          trace := [RemoteCall.getIamPolicy (stringValue cr.spec.forProvider.bucket) PolicyVersion] }

/-- Create: type-assert; fetch the policy; on fetch failure wrap with
the fetch-stage context; ensure-present; if nothing changed, no-op
success; else replace with the locally mutated document, wrapping a
write failure with the write-stage context. -/
def Create (env : ClientEnv) (mg : ManagedResource) : VerbResult :=
  match mg with
  | ManagedResource.other =>
    { err := some (ReconcileError.fresh errNotBucketPolicyMember), trace := [] }
  | ManagedResource.bucketPolicyMember cr =>
    match env.getIamPolicy (stringValue cr.spec.forProvider.bucket) PolicyVersion with
    | Except.error e =>
      { err := some (ReconcileError.wrap e errGetPolicy)
        trace := [RemoteCall.getIamPolicy (stringValue cr.spec.forProvider.bucket) PolicyVersion] }
    | Except.ok fetched =>
      if !(BindRoleToMember cr.spec.forProvider fetched).2 then
        { err := none
          trace := [RemoteCall.getIamPolicy (stringValue cr.spec.forProvider.bucket) PolicyVersion] }
      else
        match env.setIamPolicy (stringValue cr.spec.forProvider.bucket)
            (BindRoleToMember cr.spec.forProvider fetched).1 with
        | Except.error e =>
          { err := some (ReconcileError.wrap e errSetPolicy)
            trace := [RemoteCall.getIamPolicy (stringValue cr.spec.forProvider.bucket) PolicyVersion,
                      RemoteCall.setIamPolicy (stringValue cr.spec.forProvider.bucket)
                        (BindRoleToMember cr.spec.forProvider fetched).1] }
        | Except.ok _ =>
          { err := none
            trace := [RemoteCall.getIamPolicy (stringValue cr.spec.forProvider.bucket) PolicyVersion,
                      RemoteCall.setIamPolicy (stringValue cr.spec.forProvider.bucket)
                        (BindRoleToMember cr.spec.forProvider fetched).1] }

/-- Update: delegates to Create's body unchanged, returning Create's
error; no remote call of its own. -/
def Update (env : ClientEnv) (mg : ManagedResource) : VerbResult :=
  { err := (Create env mg).err, trace := (Create env mg).trace }

/-- Delete: type-assert; fetch the policy; on fetch failure wrap with
the fetch-stage context; ensure-absent; if nothing changed, no-op
success; else replace with the locally mutated document, wrapping a
write failure with the write-stage context. -/
def Delete (env : ClientEnv) (mg : ManagedResource) : VerbResult :=
  match mg with
  | ManagedResource.other =>
    { err := some (ReconcileError.fresh errNotBucketPolicyMember), trace := [] }
  | ManagedResource.bucketPolicyMember cr =>
    match env.getIamPolicy (stringValue cr.spec.forProvider.bucket) PolicyVersion with
    | Except.error e =>
      { err := some (ReconcileError.wrap e errGetPolicy)
        trace := [RemoteCall.getIamPolicy (stringValue cr.spec.forProvider.bucket) PolicyVersion] }
    | Except.ok fetched =>
      if !(UnbindRoleFromMember cr.spec.forProvider fetched).2 then
        { err := none
          trace := [RemoteCall.getIamPolicy (stringValue cr.spec.forProvider.bucket) PolicyVersion] }
      else
        match env.setIamPolicy (stringValue cr.spec.forProvider.bucket)
            (UnbindRoleFromMember cr.spec.forProvider fetched).1 with
        | Except.error e =>
          { err := some (ReconcileError.wrap e errSetPolicy)
            trace := [RemoteCall.getIamPolicy (stringValue cr.spec.forProvider.bucket) PolicyVersion,
                      RemoteCall.setIamPolicy (stringValue cr.spec.forProvider.bucket)
                        (UnbindRoleFromMember cr.spec.forProvider fetched).1] }
        | Except.ok _ =>
          { err := none
            trace := [RemoteCall.getIamPolicy (stringValue cr.spec.forProvider.bucket) PolicyVersion,
                      RemoteCall.setIamPolicy (stringValue cr.spec.forProvider.bucket)
                        (UnbindRoleFromMember cr.spec.forProvider fetched).1] }

/-- One of the four lifecycle verbs. -/
inductive Verb where
  | observe | create | update | delete
deriving DecidableEq, Repr

/-- The remote-call trace a verb issues on a given cycle. -/
def verbTrace : Verb → ClientEnv → ManagedResource → List RemoteCall
  | Verb.observe, env, mg => (Observe env mg).trace
  | Verb.create, env, mg => (Create env mg).trace
  | Verb.update, env, mg => (Update env mg).trace
  | Verb.delete, env, mg => (Delete env mg).trace

/-- Concrete fixture: declared parameters of a sample BucketPolicyMember. -/
def paramsW : BucketPolicyMemberParameters :=
  { bucket := some "my-bucket", role := some "roles/storage.objectViewer",
    memberName := some "user:alice" }

/-- Concrete fixture: a sample managed BucketPolicyMember object. -/
def crW : BucketPolicyMemberCR :=
  { spec := { forProvider := paramsW }, status := { conditions := [] } }

/-- Concrete fixture: a policy document with no bindings. -/
def polEmptyW : Policy := { etag := "etag-1", bindings := [] }

/-- Concrete fixture: a policy document already containing the desired
pair. -/
def polPresentW : Policy :=
  { etag := "etag-1", bindings := [("roles/storage.objectViewer", ["user:alice"])] }

/-- Concrete fixture: a store whose fetched document already contains
the desired pair and whose writes succeed. -/
def envPresentW : ClientEnv :=
  { getIamPolicy := fun _ _ => Except.ok polPresentW
    setIamPolicy := fun _ p => Except.ok p }

/-- Concrete fixture: a store whose fetched document is empty and whose
writes succeed. -/
def envEmptyW : ClientEnv :=
  { getIamPolicy := fun _ _ => Except.ok polEmptyW
    setIamPolicy := fun _ p => Except.ok p }

/-- Concrete fixture: the NotFound remote error. -/
def gcpNotFoundW : GcpError := { code := 404, message := "bucket not found" }

/-- Concrete fixture: a store whose fetch fails with NotFound. -/
def envNotFoundW : ClientEnv :=
  { getIamPolicy := fun _ _ => Except.error gcpNotFoundW
    setIamPolicy := fun _ p => Except.ok p }

/-- Concrete fixture: a transient remote error. -/
def gcpUnavailableW : GcpError := { code := 503, message := "backend unavailable" }

/-- Concrete fixture: a store whose fetch succeeds with an empty
document and whose writes fail. -/
def envSetFailW : ClientEnv :=
  { getIamPolicy := fun _ _ => Except.ok polEmptyW
    setIamPolicy := fun _ _ => Except.error gcpUnavailableW }

/-- C1: when the policy fetch succeeds, Observe returns
resourceExists = true and resourceUpToDate = true with a nil error
exactly when the desired (role, member) pair is already present in the
fetched document (changed = false); otherwise it returns an observation
with resourceExists = false and a nil error; and on no path does Observe
issue a SetIamPolicy write. -/
theorem C1_observe_reports_presence (env : ClientEnv) (cr : BucketPolicyMemberCR)
    (fetched : Policy)
    (hfetch : env.getIamPolicy (stringValue cr.spec.forProvider.bucket) PolicyVersion
      = Except.ok fetched) :
    ((Observe env (ManagedResource.bucketPolicyMember cr)).err = none ∧
     ((Observe env (ManagedResource.bucketPolicyMember cr)).observation
        = ⟨true, true⟩ ↔ (BindRoleToMember cr.spec.forProvider fetched).2 = false) ∧
     ((BindRoleToMember cr.spec.forProvider fetched).2 = true →
       (Observe env (ManagedResource.bucketPolicyMember cr)).observation.resourceExists
         = false)) ∧
    (∀ (env2 : ClientEnv) (mg : ManagedResource) (b : String) (p : Policy),
      RemoteCall.setIamPolicy b p ∉ (Observe env2 mg).trace) := by
  constructor
  · by_cases hc : (BindRoleToMember cr.spec.forProvider fetched).2 = true
    · simp [Observe, hfetch, hc]
    · simp [Observe, hfetch, hc]
  · intro env2 mg b p
    cases mg with
    | other => simp [Observe]
    | bucketPolicyMember cr2 =>
      cases hg : env2.getIamPolicy (stringValue cr2.spec.forProvider.bucket) PolicyVersion with
      | error e => simp [Observe, hg]
      | ok f2 =>
        by_cases hc : (BindRoleToMember cr2.spec.forProvider f2).2 = true
        · simp [Observe, hg, hc]
        · simp [Observe, hg, hc]

/-- C1 witness: the Observe contract evaluated on a concrete store whose
document already contains the desired pair. -/
theorem C1_witness :
    envPresentW.getIamPolicy (stringValue crW.spec.forProvider.bucket) PolicyVersion
      = Except.ok polPresentW ∧
    (Observe envPresentW (ManagedResource.bucketPolicyMember crW)).err = none ∧
    ((Observe envPresentW (ManagedResource.bucketPolicyMember crW)).observation
      = ⟨true, true⟩ ↔ (BindRoleToMember crW.spec.forProvider polPresentW).2 = false) :=
  ⟨rfl, (C1_observe_reports_presence envPresentW crW polPresentW rfl).1.1,
    (C1_observe_reports_presence envPresentW crW polPresentW rfl).1.2.1⟩

/-- C2: when the desired pair is already present in the freshly fetched
document (changed = false), Create returns a nil error and issues zero
SetIamPolicy calls: its trace is exactly the single fetch. -/
theorem C2_create_noop_when_present (env : ClientEnv) (cr : BucketPolicyMemberCR)
    (fetched : Policy)
    (hfetch : env.getIamPolicy (stringValue cr.spec.forProvider.bucket) PolicyVersion
      = Except.ok fetched)
    (hchanged : (BindRoleToMember cr.spec.forProvider fetched).2 = false) :
    (Create env (ManagedResource.bucketPolicyMember cr)).err = none ∧
    (Create env (ManagedResource.bucketPolicyMember cr)).trace
      = [RemoteCall.getIamPolicy (stringValue cr.spec.forProvider.bucket) PolicyVersion] ∧
    ∀ (b : String) (p : Policy),
      RemoteCall.setIamPolicy b p ∉ (Create env (ManagedResource.bucketPolicyMember cr)).trace := by
  simp [Create, hfetch, hchanged]

/-- C2 witness: Create evaluated on a concrete store whose document
already contains the desired pair. -/
theorem C2_witness :
    envPresentW.getIamPolicy (stringValue crW.spec.forProvider.bucket) PolicyVersion
      = Except.ok polPresentW ∧
    (BindRoleToMember crW.spec.forProvider polPresentW).2 = false ∧
    (Create envPresentW (ManagedResource.bucketPolicyMember crW)).err = none ∧
    (Create envPresentW (ManagedResource.bucketPolicyMember crW)).trace
      = [RemoteCall.getIamPolicy (stringValue crW.spec.forProvider.bucket) PolicyVersion] :=
  ⟨rfl, by decide,
    (C2_create_noop_when_present envPresentW crW polPresentW rfl (by decide)).1,
    (C2_create_noop_when_present envPresentW crW polPresentW rfl (by decide)).2.1⟩

/-- C3: Delete fetches the document and computes removal of the pair;
if the pair is not present (changed = false) it returns a nil error
without issuing any write, and if the pair is present it issues exactly
one SetIamPolicy carrying the mutated document and returns a nil error
when that write succeeds. -/
theorem C3_delete_removes_pair (env : ClientEnv) (cr : BucketPolicyMemberCR)
    (fetched : Policy)
    (hfetch : env.getIamPolicy (stringValue cr.spec.forProvider.bucket) PolicyVersion
      = Except.ok fetched) :
    ((UnbindRoleFromMember cr.spec.forProvider fetched).2 = false →
      Delete env (ManagedResource.bucketPolicyMember cr)
        = { err := none
            trace := [RemoteCall.getIamPolicy
              (stringValue cr.spec.forProvider.bucket) PolicyVersion] }) ∧
    ((UnbindRoleFromMember cr.spec.forProvider fetched).2 = true →
      ∀ ret : Policy,
        env.setIamPolicy (stringValue cr.spec.forProvider.bucket)
            (UnbindRoleFromMember cr.spec.forProvider fetched).1 = Except.ok ret →
        Delete env (ManagedResource.bucketPolicyMember cr)
          = { err := none
              trace := [RemoteCall.getIamPolicy
                  (stringValue cr.spec.forProvider.bucket) PolicyVersion,
                RemoteCall.setIamPolicy (stringValue cr.spec.forProvider.bucket)
                  (UnbindRoleFromMember cr.spec.forProvider fetched).1] }) := by
  constructor
  · intro h
    simp [Delete, hfetch, h]
  · intro h ret hset
    simp [Delete, hfetch, h, hset]

/-- C3 witness: Delete evaluated on a concrete store whose document
contains the pair, with a succeeding write. -/
theorem C3_witness :
    envPresentW.getIamPolicy (stringValue crW.spec.forProvider.bucket) PolicyVersion
      = Except.ok polPresentW ∧
    (UnbindRoleFromMember crW.spec.forProvider polPresentW).2 = true ∧
    Delete envPresentW (ManagedResource.bucketPolicyMember crW)
      = { err := none
          trace := [RemoteCall.getIamPolicy
              (stringValue crW.spec.forProvider.bucket) PolicyVersion,
            RemoteCall.setIamPolicy (stringValue crW.spec.forProvider.bucket)
              (UnbindRoleFromMember crW.spec.forProvider polPresentW).1] } :=
  ⟨rfl, by decide,
    (C3_delete_removes_pair envPresentW crW polPresentW rfl).2 (by decide)
      (UnbindRoleFromMember crW.spec.forProvider polPresentW).1 rfl⟩

/-- C4: for every environment and managed resource, Update delegates to
Create's body unchanged: it returns exactly Create's error and issues
exactly Create's remote calls, nothing of its own. -/
theorem C4_update_delegates_to_create (env : ClientEnv) (mg : ManagedResource) :
    (Update env mg).err = (Create env mg).err ∧
    (Update env mg).trace = (Create env mg).trace :=
  ⟨rfl, rfl⟩

lemma observe_no_set (env : ClientEnv) (mg : ManagedResource) (b : String) (p : Policy) :
    RemoteCall.setIamPolicy b p ∉ (Observe env mg).trace := by
  cases mg with
  | other => simp [Observe]
  | bucketPolicyMember cr =>
    cases hg : env.getIamPolicy (stringValue cr.spec.forProvider.bucket) PolicyVersion with
    | error e => simp [Observe, hg]
    | ok f =>
      by_cases hc : (BindRoleToMember cr.spec.forProvider f).2 = true
      · simp [Observe, hg, hc]
      · simp [Observe, hg, hc]

lemma create_set_spec (env : ClientEnv) (mg : ManagedResource) (b : String) (p : Policy)
    (hmem : RemoteCall.setIamPolicy b p ∈ (Create env mg).trace) :
    ∃ (cr : BucketPolicyMemberCR) (fetched : Policy),
      mg = ManagedResource.bucketPolicyMember cr ∧
      b = stringValue cr.spec.forProvider.bucket ∧
      env.getIamPolicy b PolicyVersion = Except.ok fetched ∧
      p = (BindRoleToMember cr.spec.forProvider fetched).1 ∧
      (Create env mg).trace = [RemoteCall.getIamPolicy b PolicyVersion,
        RemoteCall.setIamPolicy b p] := by
  cases mg with
  | other => simp [Create] at hmem
  | bucketPolicyMember cr =>
    cases hg : env.getIamPolicy (stringValue cr.spec.forProvider.bucket) PolicyVersion with
    | error e => simp [Create, hg] at hmem
    | ok fetched =>
      by_cases hc : (BindRoleToMember cr.spec.forProvider fetched).2 = true
      · have htr : (Create env (ManagedResource.bucketPolicyMember cr)).trace
            = [RemoteCall.getIamPolicy (stringValue cr.spec.forProvider.bucket) PolicyVersion,
               RemoteCall.setIamPolicy (stringValue cr.spec.forProvider.bucket)
                 (BindRoleToMember cr.spec.forProvider fetched).1] := by
          cases hs : env.setIamPolicy (stringValue cr.spec.forProvider.bucket)
              (BindRoleToMember cr.spec.forProvider fetched).1 with
          | error e2 => simp [Create, hg, hc, hs]
          | ok r2 => simp [Create, hg, hc, hs]
        rw [htr] at hmem
        simp at hmem
        obtain ⟨hb, hp⟩ := hmem
        subst hb
        subst hp
        exact ⟨cr, fetched, rfl, rfl, hg, rfl, htr⟩
      · simp [Create, hg, hc] at hmem

lemma delete_set_spec (env : ClientEnv) (mg : ManagedResource) (b : String) (p : Policy)
    (hmem : RemoteCall.setIamPolicy b p ∈ (Delete env mg).trace) :
    ∃ (cr : BucketPolicyMemberCR) (fetched : Policy),
      mg = ManagedResource.bucketPolicyMember cr ∧
      b = stringValue cr.spec.forProvider.bucket ∧
      env.getIamPolicy b PolicyVersion = Except.ok fetched ∧
      p = (UnbindRoleFromMember cr.spec.forProvider fetched).1 ∧
      (Delete env mg).trace = [RemoteCall.getIamPolicy b PolicyVersion,
        RemoteCall.setIamPolicy b p] := by
  cases mg with
  | other => simp [Delete] at hmem
  | bucketPolicyMember cr =>
    cases hg : env.getIamPolicy (stringValue cr.spec.forProvider.bucket) PolicyVersion with
    | error e => simp [Delete, hg] at hmem
    | ok fetched =>
      by_cases hc : (UnbindRoleFromMember cr.spec.forProvider fetched).2 = true
      · have htr : (Delete env (ManagedResource.bucketPolicyMember cr)).trace
            = [RemoteCall.getIamPolicy (stringValue cr.spec.forProvider.bucket) PolicyVersion,
               RemoteCall.setIamPolicy (stringValue cr.spec.forProvider.bucket)
                 (UnbindRoleFromMember cr.spec.forProvider fetched).1] := by
          cases hs : env.setIamPolicy (stringValue cr.spec.forProvider.bucket)
              (UnbindRoleFromMember cr.spec.forProvider fetched).1 with
          | error e2 => simp [Delete, hg, hc, hs]
          | ok r2 => simp [Delete, hg, hc, hs]
        rw [htr] at hmem
        simp at hmem
        obtain ⟨hb, hp⟩ := hmem
        subst hb
        subst hp
        exact ⟨cr, fetched, rfl, rfl, hg, rfl, htr⟩
      · simp [Delete, hg, hc] at hmem

/-- C5: in every cycle of every verb, a SetIamPolicy is only ever issued
after a GetIamPolicy of the same bucket in the same call, and the
document written is exactly the document that fetch returned, mutated
only in local memory by the membership resolver, carrying that fetch's
version token. -/
theorem C5_write_discipline (vb : Verb) (env : ClientEnv) (mg : ManagedResource)
    (b : String) (p : Policy)
    (hmem : RemoteCall.setIamPolicy b p ∈ verbTrace vb env mg) :
    ∃ (cr : BucketPolicyMemberCR) (fetched : Policy),
      mg = ManagedResource.bucketPolicyMember cr ∧
      b = stringValue cr.spec.forProvider.bucket ∧
      env.getIamPolicy b PolicyVersion = Except.ok fetched ∧
      verbTrace vb env mg = [RemoteCall.getIamPolicy b PolicyVersion,
        RemoteCall.setIamPolicy b p] ∧
      p.etag = fetched.etag ∧
      ((vb = Verb.create ∨ vb = Verb.update) →
        p = (BindRoleToMember cr.spec.forProvider fetched).1) ∧
      (vb = Verb.delete → p = (UnbindRoleFromMember cr.spec.forProvider fetched).1) := by
  cases vb with
  | observe => exact absurd hmem (observe_no_set env mg b p)
  | create =>
    obtain ⟨cr, fetched, h1, h2, h3, h4, h5⟩ := create_set_spec env mg b p hmem
    exact ⟨cr, fetched, h1, h2, h3, h5,
      by rw [h4, bindRoleToMember_etag],
      fun _ => h4,
      fun h => nomatch h⟩
  | update =>
    obtain ⟨cr, fetched, h1, h2, h3, h4, h5⟩ := create_set_spec env mg b p hmem
    exact ⟨cr, fetched, h1, h2, h3, h5,
      by rw [h4, bindRoleToMember_etag],
      fun _ => h4,
      fun h => nomatch h⟩
  | delete =>
    obtain ⟨cr, fetched, h1, h2, h3, h4, h5⟩ := delete_set_spec env mg b p hmem
    exact ⟨cr, fetched, h1, h2, h3, h5,
      by rw [h4, unbindRoleFromMember_etag],
      fun h => h.elim (fun h1 => nomatch h1) (fun h1 => nomatch h1),
      fun _ => h4⟩

/-- C5 witness: the write discipline evaluated at a concrete Create
cycle on an empty document, where a write does occur. -/
theorem C5_witness :
    RemoteCall.setIamPolicy "my-bucket" (BindRoleToMember crW.spec.forProvider polEmptyW).1
      ∈ verbTrace Verb.create envEmptyW (ManagedResource.bucketPolicyMember crW) ∧
    ∃ (cr : BucketPolicyMemberCR) (fetched : Policy),
      ManagedResource.bucketPolicyMember crW = ManagedResource.bucketPolicyMember cr ∧
      "my-bucket" = stringValue cr.spec.forProvider.bucket ∧
      envEmptyW.getIamPolicy "my-bucket" PolicyVersion = Except.ok fetched ∧
      verbTrace Verb.create envEmptyW (ManagedResource.bucketPolicyMember crW)
        = [RemoteCall.getIamPolicy "my-bucket" PolicyVersion,
           RemoteCall.setIamPolicy "my-bucket"
             (BindRoleToMember crW.spec.forProvider polEmptyW).1] ∧
      (BindRoleToMember crW.spec.forProvider polEmptyW).1.etag = fetched.etag ∧
      ((Verb.create = Verb.create ∨ Verb.create = Verb.update) →
        (BindRoleToMember crW.spec.forProvider polEmptyW).1
          = (BindRoleToMember cr.spec.forProvider fetched).1) ∧
      (Verb.create = Verb.delete →
        (BindRoleToMember crW.spec.forProvider polEmptyW).1
          = (UnbindRoleFromMember cr.spec.forProvider fetched).1) :=
  ⟨by decide,
    C5_write_discipline Verb.create envEmptyW (ManagedResource.bucketPolicyMember crW)
      "my-bucket" (BindRoleToMember crW.spec.forProvider polEmptyW).1 (by decide)⟩

/-- C6 counterexample: on a fetch failing with NotFound (code 404),
Observe returns the wrapped fetch error instead of reporting the
resource absent with a nil error; NotFound is not special-cased. -/
theorem C6_counterexample :
    gcpNotFoundW.code = 404 ∧
    (Observe envNotFoundW (ManagedResource.bucketPolicyMember crW)).err
      = some (ReconcileError.wrap gcpNotFoundW errGetPolicy) ∧
    (Observe envNotFoundW (ManagedResource.bucketPolicyMember crW)).err ≠ none := by
  decide

/-- C6 amended: every fetch failure in Observe, NotFound included, is
wrapped with the fetch-stage context and returned to the control loop
alongside the zero observation; no fetch error is treated as "report
absent with nil error". -/
theorem C6_observe_returns_fetch_errors (env : ClientEnv) (cr : BucketPolicyMemberCR)
    (e : GcpError)
    (hfetch : env.getIamPolicy (stringValue cr.spec.forProvider.bucket) PolicyVersion
      = Except.error e) :
    (Observe env (ManagedResource.bucketPolicyMember cr)).err
      = some (ReconcileError.wrap e errGetPolicy) ∧
    (Observe env (ManagedResource.bucketPolicyMember cr)).observation = ⟨false, false⟩ := by
  simp [Observe, hfetch]

/-- C6 witness: the amended behaviour evaluated at the concrete NotFound
store. -/
theorem C6_witness :
    envNotFoundW.getIamPolicy (stringValue crW.spec.forProvider.bucket) PolicyVersion
      = Except.error gcpNotFoundW ∧
    (Observe envNotFoundW (ManagedResource.bucketPolicyMember crW)).err
      = some (ReconcileError.wrap gcpNotFoundW errGetPolicy) :=
  ⟨rfl, (C6_observe_returns_fetch_errors envNotFoundW crW gcpNotFoundW rfl).1⟩

/-- C7 counterexample: the same underlying remote error produces the
very same wrapped error in the observe-fetch stage and in the
create-fetch stage, so the five stages are not pairwise distinguishable
from the returned error. -/
theorem C7_counterexample :
    (Observe envNotFoundW (ManagedResource.bucketPolicyMember crW)).err
      = (Create envNotFoundW (ManagedResource.bucketPolicyMember crW)).err ∧
    (Observe envNotFoundW (ManagedResource.bucketPolicyMember crW)).err ≠ none := by
  decide

/-- C7 amended: every fetch or replace failure is wrapped and returned,
with a context distinguishing the fetch stage from the write stage: the
three fetch sites all wrap with the fetch-stage context, the two write
sites with the distinct write-stage context; no failure is swallowed. -/
theorem C7_stage_wrapping (env : ClientEnv) (cr : BucketPolicyMemberCR) (e : GcpError) :
    (env.getIamPolicy (stringValue cr.spec.forProvider.bucket) PolicyVersion
        = Except.error e →
      (Observe env (ManagedResource.bucketPolicyMember cr)).err
        = some (ReconcileError.wrap e errGetPolicy) ∧
      (Create env (ManagedResource.bucketPolicyMember cr)).err
        = some (ReconcileError.wrap e errGetPolicy) ∧
      (Delete env (ManagedResource.bucketPolicyMember cr)).err
        = some (ReconcileError.wrap e errGetPolicy)) ∧
    (∀ fetched : Policy,
      env.getIamPolicy (stringValue cr.spec.forProvider.bucket) PolicyVersion
        = Except.ok fetched →
      ((BindRoleToMember cr.spec.forProvider fetched).2 = true →
        env.setIamPolicy (stringValue cr.spec.forProvider.bucket)
          (BindRoleToMember cr.spec.forProvider fetched).1 = Except.error e →
        (Create env (ManagedResource.bucketPolicyMember cr)).err
          = some (ReconcileError.wrap e errSetPolicy)) ∧
      ((UnbindRoleFromMember cr.spec.forProvider fetched).2 = true →
        env.setIamPolicy (stringValue cr.spec.forProvider.bucket)
          (UnbindRoleFromMember cr.spec.forProvider fetched).1 = Except.error e →
        (Delete env (ManagedResource.bucketPolicyMember cr)).err
          = some (ReconcileError.wrap e errSetPolicy))) ∧
    ReconcileError.wrap e errGetPolicy ≠ ReconcileError.wrap e errSetPolicy := by
  refine ⟨?_, ?_, ?_⟩
  · intro hf
    exact ⟨by simp [Observe, hf], by simp [Create, hf], by simp [Delete, hf]⟩
  · intro fetched hf
    exact ⟨fun hc hs => by simp [Create, hf, hc, hs],
           fun hc hs => by simp [Delete, hf, hc, hs]⟩
  · simp [errGetPolicy, errSetPolicy]

/-- C7 witness: the write-stage wrapping evaluated at a concrete store
whose write fails. -/
theorem C7_witness :
    envSetFailW.getIamPolicy (stringValue crW.spec.forProvider.bucket) PolicyVersion
      = Except.ok polEmptyW ∧
    (BindRoleToMember crW.spec.forProvider polEmptyW).2 = true ∧
    (Create envSetFailW (ManagedResource.bucketPolicyMember crW)).err
      = some (ReconcileError.wrap gcpUnavailableW errSetPolicy) :=
  ⟨rfl, by decide,
    ((C7_stage_wrapping envSetFailW crW gcpUnavailableW).2.1 polEmptyW rfl).1 (by decide) rfl⟩

/-- C8: the membership resolver is idempotent: ensure-present applied to
the document ensure-present produced returns it unchanged with
changed = false; ensure-absent likewise, for a well-formed document
whose bindings mapping carries no duplicate role entry. -/
theorem C8_resolver_idempotent (d : Policy) (p : BucketPolicyMemberParameters) :
    BindRoleToMember p (BindRoleToMember p d).1 = ((BindRoleToMember p d).1, false) ∧
    ((d.bindings.map Prod.fst).Nodup →
      UnbindRoleFromMember p (UnbindRoleFromMember p d).1
        = ((UnbindRoleFromMember p d).1, false)) := by
  constructor
  · simp only [BindRoleToMember]
    rw [bindB_idem]
  · intro hnd
    simp only [UnbindRoleFromMember]
    rw [unbindB_idem _ _ _ hnd]

/-- C8 witness: idempotence evaluated at a concrete document containing
the pair. -/
theorem C8_witness :
    (polPresentW.bindings.map Prod.fst).Nodup ∧
    BindRoleToMember paramsW (BindRoleToMember paramsW polPresentW).1
      = ((BindRoleToMember paramsW polPresentW).1, false) ∧
    UnbindRoleFromMember paramsW (UnbindRoleFromMember paramsW polPresentW).1
      = ((UnbindRoleFromMember paramsW polPresentW).1, false) :=
  ⟨by decide, (C8_resolver_idempotent polPresentW paramsW).1,
    (C8_resolver_idempotent polPresentW paramsW).2 (by decide)⟩

/-- C9: every GetIamPolicy issued by any verb on any cycle requests the
policy at PolicyVersion, the store's most expressive representation
version. -/
theorem C9_fetch_requests_highest_version (vb : Verb) (env : ClientEnv)
    (mg : ManagedResource) :
    ((verbTrace vb env mg).all fun c =>
      match c with
      | RemoteCall.getIamPolicy _ v => v == PolicyVersion
      | RemoteCall.setIamPolicy _ _ => true) = true := by
  cases vb with
  | observe =>
    cases mg with
    | other => rfl
    | bucketPolicyMember cr =>
      cases hg : env.getIamPolicy (stringValue cr.spec.forProvider.bucket) PolicyVersion with
      | error e => simp [verbTrace, Observe, hg]
      | ok f =>
        by_cases hc : (BindRoleToMember cr.spec.forProvider f).2 = true
        · simp [verbTrace, Observe, hg, hc]
        · simp [verbTrace, Observe, hg, hc]
  | create =>
    cases mg with
    | other => rfl
    | bucketPolicyMember cr =>
      cases hg : env.getIamPolicy (stringValue cr.spec.forProvider.bucket) PolicyVersion with
      | error e => simp [verbTrace, Create, hg]
      | ok f =>
        by_cases hc : (BindRoleToMember cr.spec.forProvider f).2 = true
        · cases hs : env.setIamPolicy (stringValue cr.spec.forProvider.bucket)
              (BindRoleToMember cr.spec.forProvider f).1 with
          | error e2 => simp [verbTrace, Create, hg, hc, hs]
          | ok r2 => simp [verbTrace, Create, hg, hc, hs]
        · simp [verbTrace, Create, hg, hc]
  | update =>
    cases mg with
    | other => rfl
    | bucketPolicyMember cr =>
      cases hg : env.getIamPolicy (stringValue cr.spec.forProvider.bucket) PolicyVersion with
      | error e => simp [verbTrace, Update, Create, hg]
      | ok f =>
        by_cases hc : (BindRoleToMember cr.spec.forProvider f).2 = true
        · cases hs : env.setIamPolicy (stringValue cr.spec.forProvider.bucket)
              (BindRoleToMember cr.spec.forProvider f).1 with
          | error e2 => simp [verbTrace, Update, Create, hg, hc, hs]
          | ok r2 => simp [verbTrace, Update, Create, hg, hc, hs]
        · simp [verbTrace, Update, Create, hg, hc]
  | delete =>
    cases mg with
    | other => rfl
    | bucketPolicyMember cr =>
      cases hg : env.getIamPolicy (stringValue cr.spec.forProvider.bucket) PolicyVersion with
      | error e => simp [verbTrace, Delete, hg]
      | ok f =>
        by_cases hc : (UnbindRoleFromMember cr.spec.forProvider f).2 = true
        · cases hs : env.setIamPolicy (stringValue cr.spec.forProvider.bucket)
              (UnbindRoleFromMember cr.spec.forProvider f).1 with
          | error e2 => simp [verbTrace, Delete, hg, hc, hs]
          | ok r2 => simp [verbTrace, Delete, hg, hc, hs]
        · simp [verbTrace, Delete, hg, hc]

/-- C10: Observe mutates the managed resource's status only on the
up-to-date branch: the Available condition is set exactly when the
desired pair is already present (changed = false), touching only the
status; on the drift branch and on the fetch-error branch the resource
is returned unchanged. -/
theorem C10_observe_status_frame (env : ClientEnv) (cr : BucketPolicyMemberCR) :
    (∀ fetched : Policy,
      env.getIamPolicy (stringValue cr.spec.forProvider.bucket) PolicyVersion
        = Except.ok fetched →
      ((BindRoleToMember cr.spec.forProvider fetched).2 = false →
        (Observe env (ManagedResource.bucketPolicyMember cr)).mg
          = ManagedResource.bucketPolicyMember (markAvailable cr) ∧
        "Available" ∈ (markAvailable cr).status.conditions ∧
        (markAvailable cr).spec = cr.spec) ∧
      ((BindRoleToMember cr.spec.forProvider fetched).2 = true →
        (Observe env (ManagedResource.bucketPolicyMember cr)).mg
          = ManagedResource.bucketPolicyMember cr)) ∧
    (∀ e : GcpError,
      env.getIamPolicy (stringValue cr.spec.forProvider.bucket) PolicyVersion
        = Except.error e →
      (Observe env (ManagedResource.bucketPolicyMember cr)).mg
        = ManagedResource.bucketPolicyMember cr) := by
  constructor
  · intro fetched hf
    constructor
    · intro hc
      exact ⟨by simp [Observe, hf, hc], by simp [markAvailable, setAvailable], rfl⟩
    · intro hc
      simp [Observe, hf, hc]
  · intro e hf
    simp [Observe, hf]

/-- C10 witness: the status frame evaluated at a concrete up-to-date
cycle. -/
theorem C10_witness :
    envPresentW.getIamPolicy (stringValue crW.spec.forProvider.bucket) PolicyVersion
      = Except.ok polPresentW ∧
    (BindRoleToMember crW.spec.forProvider polPresentW).2 = false ∧
    (Observe envPresentW (ManagedResource.bucketPolicyMember crW)).mg
      = ManagedResource.bucketPolicyMember (markAvailable crW) :=
  ⟨rfl, by decide,
    (((C10_observe_status_frame envPresentW crW).1 polPresentW rfl).1 (by decide)).1⟩

end Storage
